import Mathlib

set_option maxRecDepth 8192

/-!
Verification development for the eduroam log-analysis repository
(`log_generator.py` and `ritik.py`).

The development shallowly embeds:
* the Python `re` patterns of both files as abstract-syntax trees for a
  small backtracking regular-expression engine (`matchR`) whose result
  list is ordered by Python's backtracking priority (first element =
  the match Python returns);
* the record-building loops (`extract_summary_tables_from_stream`,
  `EduroamLogAnalyzer.parse_eduroam_log`), the pandas timestamp
  conversions, and the enrichment / aggregation logic of
  `EduroamLogAnalyzer` (`enrich_log_data`, `analyze_movements`).

Modelling conventions:
* strings are already-decoded Unicode text (the byte-decode step with
  `errors="ignore"` is outside the model); `\w` is modelled as ASCII
  alphanumeric plus underscore, which covers every input considered here;
* pandas `NaN` / missing values are `Option.none`; a DataFrame column
  exists exactly when at least one underlying record dictionary carries
  the corresponding key, as in pandas;
* map coordinates are integers in units of 1/10000 degree; the
  `np.random.uniform` jitter draws are modelled as integer streams
  (`Nat → Int`) supplied to the pipeline, standing for the ambient
  global NumPy random state.
-/

/-! ## Basic string helpers (Python `str.lower`, substring `in`) -/

/-- `a.isPrefOf b`: `a` is a prefix of `b` (character lists). -/
def isPrefOf : List Char → List Char → Bool
  | [], _ => true
  | _ :: _, [] => false
  | a :: as, b :: bs => a == b && isPrefOf as bs

/-- `hasSub p s`: the pattern `p` occurs as a contiguous substring of `s`
(Python's `p in s` on strings). -/
def hasSub (p : List Char) : List Char → Bool
  | [] => isPrefOf p []
  | s@(_ :: t) => isPrefOf p s || hasSub p t

/-- Python `p in s` for `String`s. -/
def strContains (s p : String) : Bool := hasSub p.toList s.toList

/-- Python `str.lower()` (ASCII model). -/
def lowerStr (s : String) : String := String.mk (s.toList.map Char.toLower)

/-- Python `str.split(sep)` for a one-character separator
(structurally recursive so that proofs can evaluate it). -/
def splitOnChar (sep : Char) : List Char → List (List Char)
  | [] => [[]]
  | c :: cs =>
    match splitOnChar sep cs with
    | [] => if c == sep then [[], []] else [[c]]
    | r :: rs => if c == sep then [] :: r :: rs else (c :: r) :: rs

/-- Python's whitespace set for `str.strip()` (ASCII). -/
def pySpace (c : Char) : Bool :=
  c == ' ' || c == '\t' || c == '\n' || c == '\r' || c == '\x0b' || c == '\x0c'

/-- Python `str.strip()`. -/
def pyStrip (l : List Char) : List Char :=
  ((l.dropWhile pySpace).reverse.dropWhile pySpace).reverse

/-- Decimal reading of a nonempty all-digit token. -/
def digitsToNat? (l : List Char) : Option Nat :=
  if l.isEmpty then none
  else if l.all (fun c => c.isDigit) then
    some (l.foldl (fun acc c => acc * 10 + (c.toNat - 48)) 0)
  else none

/-- Helper for `replaceSub`: a positive skip count steps over the tail
of an occurrence that was just replaced. -/
def replAux (pat rep : List Char) : List Char → Nat → List Char
  | [], _ => []
  | _ :: cs, k + 1 => replAux pat rep cs k
  | s@(c :: cs), 0 =>
    if !pat.isEmpty && isPrefOf pat s then
      rep ++ replAux pat rep cs (pat.length - 1)
    else c :: replAux pat rep cs 0

/-- Python `str.replace(pat, rep)`: all non-overlapping occurrences,
left to right (for a nonempty pattern). -/
def replaceSub (pat rep s : List Char) : List Char := replAux pat rep s 0

theorem isPrefOf_iff (p s : List Char) : isPrefOf p s = true ↔ p <+: s := by
  induction p generalizing s with
  | nil => simp [isPrefOf, List.nil_prefix]
  | cons a as ih =>
    cases s with
    | nil => simp [isPrefOf]
    | cons b bs =>
      simp [isPrefOf, List.cons_prefix_cons, ih, And.comm]

theorem hasSub_iff (p s : List Char) : hasSub p s = true ↔ p <:+: s := by
  induction s with
  | nil =>
    simp [hasSub, isPrefOf_iff, List.prefix_nil, List.infix_nil]
  | cons b bs ih =>
    rw [List.infix_cons_iff]
    simp [hasSub, isPrefOf_iff, ih]

theorem hasSub_trans {q p s : List Char} (h1 : hasSub q p = true)
    (h2 : hasSub p s = true) : hasSub q s = true := by
  rw [hasSub_iff] at *
  exact h1.trans h2

theorem strContains_trans {s p q : String} (h1 : strContains p q = true)
    (h2 : strContains s p = true) : strContains s q = true :=
  hasSub_trans h1 h2

/-- Generic helper: the head of a list is a member. -/
theorem head?_is_mem {α : Type} {l : List α} {a : α} (h : l.head? = some a) :
    a ∈ l := by
  cases l with
  | nil => simp at h
  | cons x xs => simp at h; simp [h]

/-! ## A backtracking regular-expression engine

Each pattern of the repository uses repetition (`*`, `+`, `{n}`) only on
single-character classes, so repetition is embedded by dedicated
character-class constructors and the matcher is structurally recursive.

`matchR r s c` returns the list of all ways `r` can match a prefix of
`s`, as pairs (number of characters consumed, capture environment),
ordered by Python's backtracking priority: the head of the list is the
alternative Python's `re` engine commits to. -/

/-- Capture environment: group index ↦ captured characters.  The most
recent binding is consed in front, as `re` overwrites group values. -/
abbrev Caps := List (Nat × List Char)

inductive Regex where
  /-- empty pattern -/
  | eps : Regex
  /-- literal string; `ci` = case-insensitive (`re.IGNORECASE`) -/
  | lit (s : List Char) (ci : Bool) : Regex
  /-- single character of a class -/
  | cls (p : Char → Bool) : Regex
  /-- exactly `n` characters of a class (`{n}` repetition) -/
  | repn (n : Nat) (p : Char → Bool) : Regex
  /-- one or more characters of a class, greedy (`+`) -/
  | plus (p : Char → Bool) : Regex
  /-- zero or more characters of a class, lazy (`*?`) -/
  | starL (p : Char → Bool) : Regex
  /-- zero or more characters of a class, greedy (`*`) -/
  | starG (p : Char → Bool) : Regex
  /-- sequencing -/
  | seq (a b : Regex) : Regex
  /-- alternation, left preferred (`|`) -/
  | alt (a b : Regex) : Regex
  /-- greedy option (`?`) -/
  | opt (a : Regex) : Regex
  /-- capture group with index `i` (`(?P<name>...)`) -/
  | group (i : Nat) (a : Regex) : Regex

/-- Length of the maximal prefix of `s` whose characters satisfy `p`. -/
def npref (p : Char → Bool) : List Char → Nat
  | [] => 0
  | c :: cs => if p c then npref p cs + 1 else 0

/-- Literal prefix test, optionally case-insensitive. -/
def litPref (l : List Char) (ci : Bool) (s : List Char) : Bool :=
  if ci then isPrefOf (l.map Char.toLower) (s.map Char.toLower)
  else isPrefOf l s

def matchR : Regex → List Char → Caps → List (Nat × Caps)
  | .eps, _, c => [(0, c)]
  | .lit l ci, s, c => if litPref l ci s then [(l.length, c)] else []
  | .cls p, s, c =>
      match s with
      | [] => []
      | x :: _ => if p x then [(1, c)] else []
  | .repn n p, s, c => if n ≤ npref p s then [(n, c)] else []
  | .plus p, s, c =>
      let m := npref p s
      (List.range m).map (fun k => (m - k, c))
  | .starL p, s, c =>
      (List.range (npref p s + 1)).map (fun k => (k, c))
  | .starG p, s, c =>
      let m := npref p s
      (List.range (m + 1)).map (fun k => (m - k, c))
  | .seq a b, s, c =>
      (matchR a s c).flatMap (fun nc =>
        (matchR b (s.drop nc.1) nc.2).map (fun mc => (nc.1 + mc.1, mc.2)))
  | .alt a b, s, c => matchR a s c ++ matchR b s c
  | .opt a, s, c => matchR a s c ++ [(0, c)]
  | .group i a, s, c =>
      (matchR a s c).map (fun nc => (nc.1, (i, s.take nc.1) :: nc.2))

/-- `re.Pattern.match` (anchored at the start): capture environment of
the match Python commits to, if any. -/
def matchCaps (r : Regex) (s : List Char) : Option Caps :=
  ((matchR r s []).head?).map (fun nc => nc.2)

/-- `re.Pattern.search`: try each start position from the left, at each
position taking the highest-priority match. -/
def searchCaps (r : Regex) : List Char → Option Caps
  | [] => ((matchR r [] []).head?).map (fun nc => nc.2)
  | s@(_ :: t) =>
      match (matchR r s []).head? with
      | some nc => some nc.2
      | none => searchCaps r t

/-- Syntactic check: group `i` participates in every successful match of
`r` (it is not under an option / alternation branch that can skip it). -/
def alwaysBound : Regex → Nat → Bool
  | .eps, _ => false
  | .lit _ _, _ => false
  | .cls _, _ => false
  | .repn _ _, _ => false
  | .plus _, _ => false
  | .starL _, _ => false
  | .starG _, _ => false
  | .seq a b, i => alwaysBound a i || alwaysBound b i
  | .alt a b, i => alwaysBound a i && alwaysBound b i
  | .opt _, _ => false
  | .group j a, i => (j == i) || alwaysBound a i

theorem lookup_cons_isSome {j : Nat} {v : List Char} {c : Caps} {i : Nat}
    (h : (c.lookup i).isSome = true) :
    (List.lookup i ((j, v) :: c)).isSome = true := by
  simp only [List.lookup]
  cases hij : (i == j)
  · simpa using h
  · simp

theorem lookup_cons_self {i : Nat} {v : List Char} {c : Caps} :
    (List.lookup i ((i, v) :: c)).isSome = true := by
  simp [List.lookup]

/-- The matcher never drops capture bindings: any group bound in the
input environment is bound in every result. -/
theorem matchR_mono (r : Regex) :
    ∀ (s : List Char) (c : Caps) nc, nc ∈ matchR r s c →
      ∀ i, (c.lookup i).isSome → (nc.2.lookup i).isSome := by
  induction r with
  | eps =>
    intro s c nc h i hi
    simp [matchR] at h; subst h; exact hi
  | lit l ci =>
    intro s c nc h i hi
    simp [matchR] at h
    obtain ⟨-, h⟩ := h; subst h; exact hi
  | cls p =>
    intro s c nc h i hi
    cases s with
    | nil => simp [matchR] at h
    | cons x xs =>
      simp [matchR] at h
      obtain ⟨-, h⟩ := h; subst h; exact hi
  | repn n p =>
    intro s c nc h i hi
    simp [matchR] at h
    obtain ⟨-, h⟩ := h; subst h; exact hi
  | plus p =>
    intro s c nc h i hi
    simp [matchR] at h
    obtain ⟨k, -, h⟩ := h; subst h; exact hi
  | starL p =>
    intro s c nc h i hi
    simp [matchR] at h
    obtain ⟨k, -, h⟩ := h; subst h; exact hi
  | starG p =>
    intro s c nc h i hi
    simp [matchR] at h
    obtain ⟨k, -, h⟩ := h; subst h; exact hi
  | seq a b iha ihb =>
    intro s c nc h i hi
    simp only [matchR, List.mem_flatMap, List.mem_map] at h
    obtain ⟨nc1, h1, nc2, h2, h3⟩ := h
    subst h3
    exact ihb _ _ _ h2 i (iha _ _ _ h1 i hi)
  | alt a b iha ihb =>
    intro s c nc h i hi
    simp only [matchR, List.mem_append] at h
    cases h with
    | inl h => exact iha _ _ _ h i hi
    | inr h => exact ihb _ _ _ h i hi
  | opt a iha =>
    intro s c nc h i hi
    simp only [matchR, List.mem_append, List.mem_singleton] at h
    cases h with
    | inl h => exact iha _ _ _ h i hi
    | inr h => subst h; exact hi
  | group j a iha =>
    intro s c nc h i hi
    simp only [matchR, List.mem_map] at h
    obtain ⟨nc1, h1, h2⟩ := h
    subst h2
    exact lookup_cons_isSome (iha _ _ _ h1 i hi)

/-- If `alwaysBound r i` holds then every successful match of `r` binds
group `i`. -/
theorem matchR_alwaysBound (r : Regex) (i : Nat) (hb : alwaysBound r i = true) :
    ∀ (s : List Char) (c : Caps) nc, nc ∈ matchR r s c →
      (nc.2.lookup i).isSome := by
  induction r with
  | eps => simp [alwaysBound] at hb
  | lit l ci => simp [alwaysBound] at hb
  | cls p => simp [alwaysBound] at hb
  | repn n p => simp [alwaysBound] at hb
  | plus p => simp [alwaysBound] at hb
  | starL p => simp [alwaysBound] at hb
  | starG p => simp [alwaysBound] at hb
  | seq a b iha ihb =>
    intro s c nc h
    simp only [matchR, List.mem_flatMap, List.mem_map] at h
    obtain ⟨nc1, h1, nc2, h2, h3⟩ := h
    subst h3
    simp only [alwaysBound, Bool.or_eq_true] at hb
    cases hb with
    | inl hb => exact matchR_mono b _ _ nc2 h2 i (iha hb _ _ _ h1)
    | inr hb => exact ihb hb _ _ nc2 h2
  | alt a b iha ihb =>
    intro s c nc h
    simp only [matchR, List.mem_append] at h
    simp only [alwaysBound, Bool.and_eq_true] at hb
    cases h with
    | inl h => exact iha hb.1 _ _ _ h
    | inr h => exact ihb hb.2 _ _ _ h
  | opt a iha => simp [alwaysBound] at hb
  | group j a iha =>
    intro s c nc h
    simp only [matchR, List.mem_map] at h
    obtain ⟨nc1, h1, h2⟩ := h
    subst h2
    simp only [alwaysBound, Bool.or_eq_true, beq_iff_eq] at hb
    cases hb with
    | inl hb => subst hb; exact lookup_cons_self
    | inr hb => exact lookup_cons_isSome (iha hb _ _ _ h1)

theorem matchCaps_alwaysBound {r : Regex} {i : Nat}
    (hb : alwaysBound r i = true) {s : List Char} {caps : Caps}
    (h : matchCaps r s = some caps) : (caps.lookup i).isSome := by
  unfold matchCaps at h
  cases hm : (matchR r s []).head? with
  | none => rw [hm] at h; simp at h
  | some nc =>
    rw [hm] at h; simp at h
    rw [← h]
    exact matchR_alwaysBound r i hb _ _ _ (head?_is_mem hm)

theorem searchCaps_alwaysBound {r : Regex} {i : Nat}
    (hb : alwaysBound r i = true) :
    ∀ {s : List Char} {caps : Caps},
      searchCaps r s = some caps → (caps.lookup i).isSome := by
  intro s
  induction s with
  | nil =>
    intro caps h
    simp only [searchCaps] at h
    cases hm : (matchR r [] []).head? with
    | none => rw [hm] at h; simp at h
    | some nc =>
      rw [hm] at h; simp at h
      rw [← h]
      exact matchR_alwaysBound r i hb _ _ _ (head?_is_mem hm)
  | cons x t ih =>
    intro caps h
    simp only [searchCaps] at h
    cases hm : (matchR r (x :: t) []).head? with
    | none => rw [hm] at h; exact ih h
    | some nc =>
      rw [hm] at h
      simp at h
      rw [← h]
      exact matchR_alwaysBound r i hb _ _ _ (head?_is_mem hm)

/-! ## Character classes of the repository's patterns

`\w` is modelled as ASCII alphanumeric plus underscore (the inputs in
question are ASCII).  `re.IGNORECASE` on `log_generator.py`'s access
pattern makes its literals and letter ranges case-insensitive, which is
reflected in `litCI` literals and in `cuiCLG` below. -/

def wordC (c : Char) : Bool := c.isAlphanum || c == '_'

def digitC (c : Char) : Bool := c.isDigit

/-- Python `\s` (ASCII). -/
def spaceC (c : Char) : Bool :=
  c == ' ' || c == '\t' || c == '\n' || c == '\r' || c == '\x0b' || c == '\x0c'

/-- Python `\S`. -/
def nonSpaceC (c : Char) : Bool := !(spaceC c)

/-- Python `.` (anything but a newline). -/
def dotC (c : Char) : Bool := c != '\n'

/-- `[0-9a-fA-F:-]` -/
def hexColonDashC (c : Char) : Bool :=
  digitC c || ('a' ≤ c && c ≤ 'f') || ('A' ≤ c && c ≤ 'F') || c == ':' || c == '-'

/-- `[\w@.]` -/
def userCLG (c : Char) : Bool := wordC c || c == '@' || c == '.'

/-- `[\d.]` -/
def ipC (c : Char) : Bool := digitC c || c == '.'

/-- `[a-f0-9]` under `re.IGNORECASE` (so `A`-`F` match as well). -/
def cuiCLG (c : Char) : Bool :=
  ('a' ≤ c && c ≤ 'f') || ('A' ≤ c && c ≤ 'F') || digitC c

/-- `[^#]` -/
def notHashC (c : Char) : Bool := c != '#'

/-- `[\w.@-]` (ritik.py username) -/
def userCRK (c : Char) : Bool := wordC c || c == '.' || c == '@' || c == '-'

/-- `[\w:.-]` (ritik.py stationid) -/
def stationCRK (c : Char) : Bool := wordC c || c == ':' || c == '.' || c == '-'

/-- `[\w.-]` (ritik.py institution names / operator) -/
def instCRK (c : Char) : Bool := wordC c || c == '.' || c == '-'

/-- Case-sensitive literal. -/
def litS (s : String) : Regex := Regex.lit s.toList false

/-- Case-insensitive literal (`re.IGNORECASE`). -/
def litCI (s : String) : Regex := Regex.lit s.toList true

/-- Right-nested sequencing of a pattern list. -/
def seqs : List Regex → Regex
  | [] => Regex.eps
  | [r] => r
  | r :: rs => Regex.seq r (seqs rs)

/-! ## Timestamps

`Ts` is the structured instant produced by a successful
`datetime.strptime(s, "%a %b %d %H:%M:%S %Y")` - equivalently by
pandas' `to_datetime` once it has inferred that format from data of
this shape (the weekday token must be a valid abbreviation but is not
checked for consistency with the date, exactly as in CPython). -/

structure Ts where
  year : Nat
  month : Nat
  day : Nat
  hour : Nat
  minute : Nat
  second : Nat
deriving DecidableEq

def weekdayAbbrevs : List String := ["Mon", "Tue", "Wed", "Thu", "Fri", "Sat", "Sun"]

def monthAbbrevs : List String :=
  ["Jan", "Feb", "Mar", "Apr", "May", "Jun",
   "Jul", "Aug", "Sep", "Oct", "Nov", "Dec"]

def monthNum (m : String) : Option Nat := (monthAbbrevs.indexOf? m).map (· + 1)

def isLeap (y : Nat) : Bool := (y % 4 == 0 && y % 100 != 0) || y % 400 == 0

def daysInMonth (m y : Nat) : Nat :=
  if m == 2 then (if isLeap y then 29 else 28)
  else if m == 4 || m == 6 || m == 9 || m == 11 then 30
  else 31

/-- `strptime` with the fixed format `%a %b %d %H:%M:%S %Y`; `none` is
`NaT` / a raised `ValueError` depending on the caller's error policy. -/
def parseTs (s : String) : Option Ts :=
  match splitOnChar ' ' s.toList with
  | [w, mo, d, tm, y] =>
    match monthNum (String.mk mo), digitsToNat? d, digitsToNat? y,
        splitOnChar ':' tm with
    | some m, some dd, some yy, [hh, mi, sec] =>
      match digitsToNat? hh, digitsToNat? mi, digitsToNat? sec with
      | some h, some mn, some sc =>
        if weekdayAbbrevs.contains (String.mk w) && decide (d.length ≤ 2) &&
            decide (1 ≤ dd) && decide (dd ≤ daysInMonth m yy) &&
            decide (h ≤ 23) && decide (mn ≤ 59) && decide (sc ≤ 59) then
          some ⟨yy, m, dd, h, mn, sc⟩
        else none
      | _, _, _ => none
    | _, _, _, _ => none
  | _ => none

/-! ## log_generator.py -/

namespace LogGen

/-- `(?P<timestamp>\w{3} \w{3} \d+ \d{2}:\d{2}:\d{2} \d{4})` (group body). -/
def tsPat : Regex := seqs [
  .repn 3 wordC, litS " ", .repn 3 wordC, litS " ", .plus digitC, litS " ",
  .repn 2 digitC, litS ":", .repn 2 digitC, litS ":", .repn 2 digitC,
  litS " ", .repn 4 digitC]

/-- `access_pattern` of `log_generator.py` (lines 12-16), compiled with
`re.IGNORECASE`.  Group indices: 0 timestamp, 1 event, 2 user,
3 stationid, 4 source, 5 dest, 6 ip, 7 cui. -/
def accessPattern : Regex := seqs [
  .group 0 tsPat,
  litS ": ",
  .group 1 (.seq (litCI "Access-") (.alt (litCI "Accept") (litCI "Reject"))),
  litCI " for user ",
  .opt (.group 2 (.plus userCLG)),
  .opt (litS " "),
  litCI "stationid ",
  .group 3 (.plus hexColonDashC),
  .starL dotC,
  litCI "from ",
  .group 4 (.plus nonSpaceC),
  .opt (seqs [litCI " to ", .group 5 (.plus nonSpaceC)]),
  .starL dotC,
  litS "(",
  .group 6 (.plus ipC),
  .opt (litS ")"),
  .opt (seqs [.starL dotC, litCI "cui ", .group 7 (.plus cuiCLG)])]

/-- `fticks_pattern` of `log_generator.py` (lines 18-21); the `.` in
`F-TICKS/eduroam/1.0#` is an unescaped regex dot.  Group indices:
0 timestamp, 1 country, 2 inst, 3 csi, 4 result. -/
def fticksPattern : Regex := seqs [
  .group 0 tsPat,
  litS ": ",
  litS "F-TICKS/eduroam/1", .cls dotC, litS "0#REALM=",
  .starG notHashC, litS "#VISCOUNTRY=",
  .group 1 (.starG notHashC), litS "#VISINST=",
  .group 2 (.starG notHashC), litS "#CSI=",
  .group 3 (.starG notHashC), litS "#RESULT=",
  .group 4 (.starG notHashC), litS "#"]

/-- `m.group(name)`: `none` when the group did not participate. -/
def grp (caps : Caps) (i : Nat) : Option String :=
  (caps.lookup i).map (fun l => String.mk l)

/-- One entry of `access_logs` (lines 30-39). -/
structure AccessRow where
  Timestamp : Option String
  Event : Option String
  Username : Option String
  StationID : Option String
  Source : Option String
  Destination : Option String
  ServerIP : Option String
  CUI : Option String
deriving DecidableEq

def buildAccess (caps : Caps) : AccessRow :=
  { Timestamp := grp caps 0, Event := grp caps 1, Username := grp caps 2,
    StationID := grp caps 3, Source := grp caps 4, Destination := grp caps 5,
    ServerIP := grp caps 6, CUI := grp caps 7 }

/-- One entry of `fticks_logs` (lines 42-51), with the derived `Reason`. -/
structure FticksRow where
  Timestamp : Option String
  VISCOUNTRY : Option String
  VISINST : Option String
  CSI : Option String
  RESULT : Option String
  Reason : String
deriving DecidableEq

def buildFticks (caps : Caps) : FticksRow :=
  let result := grp caps 4
  { Timestamp := grp caps 0, VISCOUNTRY := grp caps 1, VISINST := grp caps 2,
    CSI := grp caps 3, RESULT := result,
    Reason := if result = some "OK" then "Authentication successful"
              else "Authentication failed" }

/-- The `access_logs` list accumulated by the line loop (lines 23-39);
each line is independently searched with the access pattern. -/
def accessLogsOf (lines : List String) : List AccessRow :=
  lines.filterMap (fun line =>
    (searchCaps accessPattern line.toList).map buildAccess)

/-- The `fticks_logs` list accumulated by the line loop (lines 23-27 and
41-51). -/
def fticksLogsOf (lines : List String) : List FticksRow :=
  lines.filterMap (fun line =>
    (searchCaps fticksPattern line.toList).map buildFticks)

/-- An access row after `pd.to_datetime(..., errors="coerce")`:
unparseable timestamps become `NaT` (`none`), everything else is kept. -/
structure AccessRowTs where
  Timestamp : Option Ts
  Event : Option String
  Username : Option String
  StationID : Option String
  Source : Option String
  Destination : Option String
  ServerIP : Option String
  CUI : Option String
deriving DecidableEq

structure FticksRowTs where
  Timestamp : Option Ts
  VISCOUNTRY : Option String
  VISINST : Option String
  CSI : Option String
  RESULT : Option String
  Reason : String
deriving DecidableEq

def coerceAccess (r : AccessRow) : AccessRowTs :=
  { Timestamp := r.Timestamp.bind parseTs, Event := r.Event,
    Username := r.Username, StationID := r.StationID, Source := r.Source,
    Destination := r.Destination, ServerIP := r.ServerIP, CUI := r.CUI }

def coerceFticks (r : FticksRow) : FticksRowTs :=
  { Timestamp := r.Timestamp.bind parseTs, VISCOUNTRY := r.VISCOUNTRY,
    VISINST := r.VISINST, CSI := r.CSI, RESULT := r.RESULT,
    Reason := r.Reason }

/-- `extract_summary_tables_from_stream` (lines 8-59).  The two
`pd.to_datetime` column assignments (lines 56-57) raise a `KeyError`
whenever the corresponding record list is empty, because
`pd.DataFrame([])` has no `Timestamp` column; this is modelled by the
`.error` branches. -/
def extractSummary (lines : List String) :
    Except String (List AccessRowTs × List FticksRowTs) :=
  let dfAccess := accessLogsOf lines
  let dfFticks := fticksLogsOf lines
  if dfAccess.isEmpty then .error "KeyError: 'Timestamp'"
  else if dfFticks.isEmpty then .error "KeyError: 'Timestamp'"
  else .ok (dfAccess.map coerceAccess, dfFticks.map coerceFticks)

end LogGen

/-- `m.group(name)`: `none` when the group did not participate in the
match (top-level alias shared by both analyzer models). -/
def grp (caps : Caps) (i : Nat) : Option String :=
  (caps.lookup i).map (fun l => String.mk l)

/-! ## ritik.py (`EduroamLogAnalyzer`) -/

namespace Ritik

/-- `\w{3} \w{3} \d{2} \d{2}:\d{2}:\d{2} \d{4}` (ritik.py's timestamp
body: the day has exactly two digits here). -/
def tsPat : Regex := seqs [
  .repn 3 wordC, litS " ", .repn 3 wordC, litS " ", .repn 2 digitC, litS " ",
  .repn 2 digitC, litS ":", .repn 2 digitC, litS ":", .repn 2 digitC,
  litS " ", .repn 4 digitC]

/-- `access_pattern` of `ritik.py` (lines 163-173), case-sensitive and
used with `re.match` (the leading `^` is the anchoring, built into
`matchCaps`).  Group indices: 0 timestamp, 1 status, 2 user,
3 stationid, 4 cui, 5 from_inst, 6 to_inst, 7 ip, 8 operator. -/
def accessPattern : Regex := seqs [
  .group 0 tsPat,
  litS ": ",
  litS "Access-",
  .group 1 (.alt (litS "Accept") (litS "Reject")),
  .opt (seqs [litS " for user ", .group 2 (.plus userCRK)]),
  .opt (seqs [litS " stationid ", .group 3 (.plus stationCRK)]),
  .opt (seqs [litS " cui ", .group 4 (.plus wordC)]),
  .opt (seqs [litS " from ", .group 5 (.plus instCRK)]),
  .opt (seqs [litS " to ", .group 6 (.plus instCRK)]),
  .starG dotC,
  litS "(",
  .group 7 (.plus ipC),
  litS ")",
  .opt (seqs [.starG dotC, litS " operator ", .group 8 (.plus instCRK)])]

/-- `fticks_pattern` of `ritik.py` (lines 175-182).  Group indices:
0 timestamp, 1 realm, 2 viscountry, 3 visinst, 4 csi, 5 result. -/
def fticksPattern : Regex := seqs [
  .group 0 tsPat,
  litS ": ",
  litS "F-TICKS/eduroam/", .plus ipC, litS "#REALM=",
  .group 1 (.starG notHashC), litS "#",
  litS "VISCOUNTRY=", .group 2 (.starG notHashC), litS "#",
  litS "VISINST=", .group 3 (.starG notHashC), litS "#",
  litS "CSI=", .group 4 (.starG notHashC), litS "#",
  litS "RESULT=", .group 5 (.starG notHashC), litS "#"]

/-- One `groupdict()`-plus-`log_type` record (lines 192-203).  The two
constructors carry exactly the keys the respective `groupdict` has, so
DataFrame column existence can be read off the record kinds present. -/
inductive RkRec where
  | access (timestamp status user stationid cui from_inst to_inst ip oper :
      Option String) : RkRec
  | fticks (timestamp realm viscountry visinst csi result :
      Option String) : RkRec
deriving DecidableEq

def buildAccessRec (caps : Caps) : RkRec :=
  .access (grp caps 0) (grp caps 1) (grp caps 2) (grp caps 3) (grp caps 4)
    (grp caps 5) (grp caps 6) (grp caps 7) (grp caps 8)

def buildFticksRec (caps : Caps) : RkRec :=
  .fticks (grp caps 0) (grp caps 1) (grp caps 2) (grp caps 3) (grp caps 4)
    (grp caps 5)

def RkRec.isAccess : RkRec → Bool
  | .access _ _ _ _ _ _ _ _ _ => true
  | .fticks _ _ _ _ _ _ => false

def RkRec.tsStr : RkRec → Option String
  | .access t _ _ _ _ _ _ _ _ => t
  | .fticks t _ _ _ _ _ => t

def RkRec.statusF : RkRec → Option String
  | .access _ st _ _ _ _ _ _ _ => st
  | .fticks _ _ _ _ _ _ => none

def RkRec.userF : RkRec → Option String
  | .access _ _ u _ _ _ _ _ _ => u
  | .fticks _ _ _ _ _ _ => none

def RkRec.stationidF : RkRec → Option String
  | .access _ _ _ sid _ _ _ _ _ => sid
  | .fticks _ _ _ _ _ _ => none

def RkRec.cuiF : RkRec → Option String
  | .access _ _ _ _ cu _ _ _ _ => cu
  | .fticks _ _ _ _ _ _ => none

def RkRec.fromInstF : RkRec → Option String
  | .access _ _ _ _ _ fi _ _ _ => fi
  | .fticks _ _ _ _ _ _ => none

def RkRec.toInstF : RkRec → Option String
  | .access _ _ _ _ _ _ ti _ _ => ti
  | .fticks _ _ _ _ _ _ => none

def RkRec.ipF : RkRec → Option String
  | .access _ _ _ _ _ _ _ ip _ => ip
  | .fticks _ _ _ _ _ _ => none

def RkRec.operF : RkRec → Option String
  | .access _ _ _ _ _ _ _ _ op => op
  | .fticks _ _ _ _ _ _ => none

def RkRec.realmF : RkRec → Option String
  | .access _ _ _ _ _ _ _ _ _ => none
  | .fticks _ r _ _ _ _ => r

def RkRec.viscountryF : RkRec → Option String
  | .access _ _ _ _ _ _ _ _ _ => none
  | .fticks _ _ v _ _ _ => v

def RkRec.visinstF : RkRec → Option String
  | .access _ _ _ _ _ _ _ _ _ => none
  | .fticks _ _ _ v _ _ => v

def RkRec.csiF : RkRec → Option String
  | .access _ _ _ _ _ _ _ _ _ => none
  | .fticks _ _ _ _ c _ => c

def RkRec.resultF : RkRec → Option String
  | .access _ _ _ _ _ _ _ _ _ => none
  | .fticks _ _ _ _ _ r => r

/-- The record-collection loop of `parse_eduroam_log` (lines 184-203):
per stripped non-empty line, both anchored patterns are tried and each
match appends a record (access first). -/
def parseRecords (lines : List String) : List RkRec :=
  lines.flatMap (fun line =>
    let l := pyStrip line.toList
    if l.isEmpty then []
    else
      ((matchCaps accessPattern l).map buildAccessRec).toList ++
      ((matchCaps fticksPattern l).map buildFticksRec).toList)

/-- One timestamp through `pd.to_datetime(column, format=...)` with the
default `errors="raise"` policy: a missing value (`NaN`) passes through
as `NaT`, a present string that does not parse raises. -/
def parseTsStrict : Option String → Option (Option Ts)
  | none => some none
  | some s => (parseTs s).map some

/-- The whole-column `pd.to_datetime` of line 213: fails (raises
`ValueError`) as soon as any present timestamp string fails to parse. -/
def toDatetimeStrict : List RkRec → Option (List (Option Ts × RkRec))
  | [] => some []
  | r :: rs =>
    match parseTsStrict r.tsStr, toDatetimeStrict rs with
    | some t, some rest => some ((t, r) :: rest)
    | _, _ => none

/-- `self.indian_institutions` (lines 125-130). -/
def indianInstitutions : List String :=
  ["iitd.ac.in", "iitm.ac.in", "iitb.ac.in", "iitg.ac.in", "iitk.ac.in",
   "iitr.ac.in", "iiserkol.ac.in", "iisc.ac.in", "icgeb.ac.in",
   "nit.ac.in", "ernet.in", "iiserpune.ac.in", "iisertvm.ac.in",
   "iiserb.ac.in", "bits-pilani.ac.in", "jnu.ac.in", "du.ac.in",
   "tifr.res.in", "cdac.in", "csir.res.in"]

/-- `self.institution_coordinates` (lines 133-144), in units of
1/10000 degree. -/
def institutionCoordinates : List (String × Int × Int) :=
  [("iitd", 286139, 772090), ("iitm", 129716, 802594),
   ("iitb", 191334, 729133), ("iitg", 261890, 916917),
   ("iitk", 265123, 802329), ("iitr", 298650, 778950),
   ("iiserkol", 225726, 883639), ("iisc", 130827, 775718),
   ("etlr1.eduroam.org", 525200, 134050),
   ("etlr2.eduroam.org", 556761, 125683)]

/-- `self.country_coordinates` (lines 147-156), in units of
1/10000 degree. -/
def countryCoordinates : List (String × Int × Int) :=
  [("India", 205937, 789629), ("Italy", 418719, 125674),
   ("UK", 553781, -34360), ("USA", 398283, -985795),
   ("Germany", 511657, 104515), ("France", 462276, 22137),
   ("Netherlands", 521326, 52913), ("Sweden", 601282, 186435)]

/-- `classify_user_type` (lines 229-242); the `user` argument is unused
in the source as well. -/
def classifyUserType (_user realm from_inst to_inst : String) : String :=
  if indianInstitutions.any (fun d => strContains (lowerStr realm) d) then
    "Indian"
  else
    let instNames := lowerStr from_inst ++ " " ++ lowerStr to_inst
    if ["iit", "iisc", "iiser", "nit"].any
        (fun k => strContains instNames k) then "Indian"
    else "Foreign"

/-- `get_country_from_realm` (lines 250-272): substring containment on
the lower-cased realm, `.in`/domestic institutions first, then the
other markers, first hit wins. -/
def getCountryFromRealm (realm : String) : String :=
  if realm = "" then "Unknown"
  else
    let r := lowerStr realm
    if strContains r ".in" ||
        indianInstitutions.any (fun inst => strContains r inst) then "India"
    else if strContains r ".it" then "Italy"
    else if strContains r ".uk" || strContains r ".ac.uk" then "UK"
    else if strContains r ".edu" then "USA"
    else if strContains r ".de" then "Germany"
    else if strContains r ".fr" then "France"
    else if strContains r ".nl" then "Netherlands"
    else if strContains r ".se" then "Sweden"
    else "Unknown"

/-- Python `str(x)` on a possibly-missing value: `str(nan) = "nan"`. -/
def strOfOpt : Option String → String
  | some s => s
  | none => "nan"

/-- `get_visiting_location` (lines 277-286). -/
def getVisitingLocation (from_inst to_inst : String) (ip : Option String) :
    String :=
  let institutions := lowerStr from_inst ++ " " ++ lowerStr to_inst
  if ["iit", "iisc", "iiser", "nit"].any
      (fun k => strContains institutions k) ||
      strContains (strOfOpt ip) "14.139." ||
      strContains (strOfOpt ip) "103." then "India"
  else if strContains institutions "eduroam.org" then "International"
  else "Unknown"

/-- `get_coordinates` (lines 297-304). -/
def getCoordinates (instName country : String) : Int × Int :=
  let instKey := String.mk (replaceSub "_sp".toList []
    (replaceSub "_idp_sp".toList [] (lowerStr instName).toList))
  match List.lookup instKey institutionCoordinates with
  | some c => c
  | none =>
    match List.lookup country countryCoordinates with
    | some c => c
    | none => (0, 0)

/-- A row of the enriched DataFrame returned by `enrich_log_data`. -/
structure EnrRow where
  isAccess : Bool
  timestamp : Option Ts
  status : Option String
  stationid : Option String
  cui : Option String
  ip : Option String
  oper : Option String
  viscountry : Option String
  visinst : Option String
  csi : Option String
  result : Option String
  user : String
  from_inst : String
  to_inst : String
  realm : String
  user_type : String
  home_country : String
  visiting_country : String
  is_roaming : Bool
  latitude : Int
  longitude : Int
  connection_success : String
deriving DecidableEq

/-- One fully enriched record (`enrich_log_data`, lines 220-318).
`hasRealmCol` states whether the DataFrame has a `realm` column, i.e.
whether any F-TICKS record is present (line 226's `df.get('realm', ...)`
falls back to splitting the username only when the column is absent).
`jlat i` / `jlon i` are the i-th draws of the two
`np.random.uniform(-0.1, 0.1, len(df))` jitter vectors (lines 312-313),
in units of 1/10000 degree. -/
def enrichRow (jlat jlon : Nat → Int) (hasRealmCol : Bool) (i : Nat)
    (ts : Option Ts) (r : RkRec) : EnrRow :=
  let user := (r.userF).getD "unknown"
  let fromInst := (r.fromInstF).getD "unknown"
  let toInst := (r.toInstF).getD "unknown"
  let realm := if hasRealmCol then (r.realmF).getD ""
               else (((splitOnChar '@' user.toList).get? 1).map String.mk).getD ""
  let home := getCountryFromRealm realm
  let visiting := getVisitingLocation fromInst toInst r.ipF
  let base := getCoordinates toInst visiting
  { isAccess := r.isAccess, timestamp := ts, status := r.statusF,
    stationid := r.stationidF, cui := r.cuiF, ip := r.ipF, oper := r.operF,
    viscountry := r.viscountryF, visinst := r.visinstF, csi := r.csiF,
    result := r.resultF,
    user := user, from_inst := fromInst, to_inst := toInst, realm := realm,
    user_type := classifyUserType user realm fromInst toInst,
    home_country := home, visiting_country := visiting,
    is_roaming := decide (home ≠ visiting) && decide (home ≠ "Unknown"),
    latitude := base.1 + jlat i, longitude := base.2 + jlon i,
    connection_success :=
      if r.statusF = some "Accept" then "Success" else "Failed" }

end Ritik

namespace Ritik

/-- `enrich_log_data` (lines 220-318) over the typed record list.
Line 223 (`df['user']`) raises a `KeyError` when no access record is
present, because then no record dictionary carries the `user` key and
the DataFrame has no such column; modelled by the `.error` branch. -/
def enrichLogData (jlat jlon : Nat → Int) (recs : List (Option Ts × RkRec)) :
    Except String (List EnrRow) :=
  if !(recs.any (fun tr => tr.2.isAccess)) then .error "KeyError: 'user'"
  else
    let hasRealmCol := recs.any (fun tr => !tr.2.isAccess)
    .ok (recs.enum.map (fun itr => enrichRow jlat jlon hasRealmCol itr.1 itr.2.1 itr.2.2))

/-- `parse_eduroam_log` (lines 158-218).  The `Option String` component
is the informational `st.error` message (not a raised error); raised
exceptions surface as `.error`. -/
def parseEduroamLog (jlat jlon : Nat → Int) (logContent : String) :
    Except String (Option String × List EnrRow) :=
  let lines := (splitOnChar '\n' (pyStrip logContent.toList)).map String.mk
  let records := parseRecords lines
  if records.isEmpty then
    .ok (some "No valid eduroam log entries found. Please check your log file format.", [])
  else
    match toDatetimeStrict records with
    | none => .error "ValueError: time data does not match format"
    | some recs =>
      match enrichLogData jlat jlon recs with
      | .error e => .error e
      | .ok rows => .ok (none, rows)

/-! ### `analyze_movements` (lines 320-366): the aggregate reductions the
claims mention. -/

/-- `analysis['total_connections'] = len(df)` (line 329). -/
def totalConnections (df : List EnrRow) : Nat := df.length

/-- `analysis['successful_connections'] = len(df[df['status'] == 'Accept'])`
(line 330). -/
def successfulConnections (df : List EnrRow) : Nat :=
  (df.filter (fun r => r.status == some "Accept")).length

/-- `analysis['failed_connections'] = len(df[df['status'] == 'Reject'])`
(line 331). -/
def failedConnections (df : List EnrRow) : Nat :=
  (df.filter (fun r => r.status == some "Reject")).length

/-- Order-preserving distinct values, first occurrence kept
(pandas `Series.unique`). -/
def uniqueAux : List String → List String → List String
  | _, [] => []
  | seen, x :: xs =>
    if seen.contains x then uniqueAux seen xs
    else x :: uniqueAux (x :: seen) xs

def uniqueOrder (l : List String) : List String := uniqueAux [] l

/-- The users for which `user_movements` builds an entry: every distinct
user except the sentinel `'unknown'` (lines 337-340). -/
def movementUsers (df : List EnrRow) : List String :=
  (uniqueOrder (df.map (fun r => r.user))).filter (fun u => u != "unknown")

/-- `user_movements[user]['total_connections'] = len(user_data)`
(lines 342, 349). -/
def userTotalConnections (df : List EnrRow) (u : String) : Nat :=
  (df.filter (fun r => r.user == u)).length

/-- `user_movements[user]['successful_connections']` (line 350). -/
def userSuccessfulConnections (df : List EnrRow) (u : String) : Nat :=
  (df.filter (fun r => r.user == u && r.status == some "Accept")).length

end Ritik

/-! ## Shared helper lemmas and concrete inputs -/

theorem filterMap_singleton_inv {α β : Type} (f : α → Option β) (a : α) (b : β)
    (h : List.filterMap f [a] = [b]) : f a = some b := by
  cases hf : f a with
  | none => simp [List.filterMap_cons, hf] at h
  | some v => simp [List.filterMap_cons, hf] at h; rw [h]

theorem grp_isSome {caps : Caps} {i : Nat}
    (h : (caps.lookup i).isSome = true) : (grp caps i).isSome = true := by
  unfold grp
  cases hl : caps.lookup i
  · rw [hl] at h; cases h
  · simp

/-- Zero jitter stream (one fixed state of the NumPy generator). -/
def jzero : Nat → Int := fun _ => 0

/-- A different jitter stream (another state of the generator). -/
def jseven : Nat → Int := fun _ => 7

/-- Example 1 of the specification. -/
def aliceLine : String :=
  "Thu Jul 25 09:03:00 2024: Access-Accept for user alice@iitd.ac.in stationid AA:BB:CC:DD:EE:FF from sp1.example to sp2.example (10.0.0.5)"

/-- A well-formed F-TICKS line (Example 2 of the specification). -/
def fticksLine : String :=
  "Thu Jul 25 09:03:05 2024: F-TICKS/eduroam/1.0#REALM=iitd.ac.in#VISCOUNTRY=IN#VISINST=nit.ac.in#CSI=abc123#RESULT=OK#"

/-- An F-TICKS line with lower-case result value. -/
def fticksLineLower : String :=
  "Thu Jul 25 09:03:05 2024: F-TICKS/eduroam/1.0#REALM=x#VISCOUNTRY=IN#VISINST=y#CSI=z#RESULT=ok#"

/-- Both example lines as one uploaded file. -/
def bothInput : String := aliceLine ++ "\n" ++ fticksLine

/-- Access line with none of the optional captures (no username token,
no destination, no CUI). -/
def lgNoOptLine : String :=
  "Thu Jul 25 09:03:00 2024: Access-Reject for user stationid AA:BB from sp1 (1.2.3.4)"

/-- Timestamp, event keyword and IP present, but no `stationid`. -/
def lgNoStationLine : String :=
  "Thu Jul 25 09:03:00 2024: Access-Accept for user alice from sp1 (10.0.0.5)"

/-- Same line with a stationid added. -/
def lgWithStationLine : String :=
  "Thu Jul 25 09:03:00 2024: Access-Accept for user alice stationid AA from sp1 (10.0.0.5)"

/-- No event keyword. -/
def lgNoEventLine : String :=
  "Thu Jul 25 09:03:00 2024: hello for user a stationid AA from sp1 (1.2.3.4)"

/-- No parenthesised IP. -/
def lgNoIpLine : String :=
  "Thu Jul 25 09:03:00 2024: Access-Accept for user a stationid AA from sp1"

/-- Matches both access grammars but `Xxy` is not a weekday
abbreviation, so the timestamp does not parse. -/
def badTsLine : String :=
  "Xxy Jul 25 09:03:00 2024: Access-Accept for user a stationid AA from sp1 (1.2.3.4)"

/-- The record `ritik.py` extracts from `aliceLine`. -/
def aliceRecRK : Ritik.RkRec :=
  .access (some "Thu Jul 25 09:03:00 2024") (some "Accept")
    (some "alice@iitd.ac.in") (some "AA:BB:CC:DD:EE:FF") none
    (some "sp1.example") (some "sp2.example") (some "10.0.0.5") none

/-- Projection helpers on pipeline results (used by individual claims). -/
def rowsOf : Except String (Option String × List Ritik.EnrRow) →
    List Ritik.EnrRow
  | .ok (_, rows) => rows
  | .error _ => []

def latOfFirst (e : Except String (Option String × List Ritik.EnrRow)) :
    Option Int :=
  ((rowsOf e).head?).map (fun r => r.latitude)

def homeOfFirst (e : Except String (Option String × List Ritik.EnrRow)) :
    Option String :=
  ((rowsOf e).head?).map (fun r => r.home_country)

/-! ## Claims -/

/-- C1: the specification says an all-garbage input yields two empty
tables and raises no error, the only visible effect being the
informational "no valid entries found" condition.  This is what
`ritik.py` does (second conjunct), but `log_generator.py`'s
`extract_summary_tables_from_stream` raises a `KeyError` on line 56:
with no matching line, `access_logs` is empty, `pd.DataFrame([])` has
no columns, and `df_access["Timestamp"]` fails.  The theorem evaluates
both parsing stages at the garbage input `"hello"`. -/
theorem C1_garbage_input_evaluation :
    LogGen.extractSummary ["hello"] = .error "KeyError: 'Timestamp'" ∧
    Ritik.parseEduroamLog jzero jzero "hello" =
      .ok (some "No valid eduroam log entries found. Please check your log file format.", []) :=
  ⟨rfl, rfl⟩

/-- C8: the specification's Example 1 line produces exactly one access
record with the stated Event, Username, StationID, Source, Destination
and ServerIP values (and no CUI). -/
theorem C8_example1 :
    LogGen.accessLogsOf [aliceLine] =
      [{ Timestamp := some "Thu Jul 25 09:03:00 2024",
         Event := some "Access-Accept",
         Username := some "alice@iitd.ac.in",
         StationID := some "AA:BB:CC:DD:EE:FF",
         Source := some "sp1.example",
         Destination := some "sp2.example",
         ServerIP := some "10.0.0.5",
         CUI := none }] := rfl

theorem accessLogsOf_singleton_inv {line : String} {rec : LogGen.AccessRow}
    (h : LogGen.accessLogsOf [line] = [rec]) :
    ∃ caps, searchCaps LogGen.accessPattern line.toList = some caps ∧
      rec = LogGen.buildAccess caps := by
  unfold LogGen.accessLogsOf at h
  have h1 := filterMap_singleton_inv _ _ _ h
  simp only [Option.map_eq_some'] at h1
  obtain ⟨caps, hs, hb⟩ := h1
  exact ⟨caps, hs, hb.symm⟩

theorem fticksLogsOf_singleton_inv {line : String} {rec : LogGen.FticksRow}
    (h : LogGen.fticksLogsOf [line] = [rec]) :
    ∃ caps, searchCaps LogGen.fticksPattern line.toList = some caps ∧
      rec = LogGen.buildFticks caps := by
  unfold LogGen.fticksLogsOf at h
  have h1 := filterMap_singleton_inv _ _ _ h
  simp only [Option.map_eq_some'] at h1
  obtain ⟨caps, hs, hb⟩ := h1
  exact ⟨caps, hs, hb.symm⟩

/-- The record extracted from `lgNoOptLine`: all optional groups null. -/
def lgNoOptRow : LogGen.AccessRow :=
  { Timestamp := some "Thu Jul 25 09:03:00 2024", Event := some "Access-Reject",
    Username := none, StationID := some "AA:BB", Source := some "sp1",
    Destination := none, ServerIP := some "1.2.3.4", CUI := none }

/-- C2 counterexample: the claim says a line is accepted exactly when
timestamp, event keyword and IP match, with only username, destination
and CUI optional.  `lgNoStationLine` has a matching timestamp, event
keyword and IP but no `stationid` token and extracts zero records,
while the same line with a stationid added is accepted - so `stationid`
(like the `for user` literal and the source) is mandatory too. -/
theorem C2_counterexample :
    LogGen.accessLogsOf [lgNoStationLine] = [] ∧
    LogGen.accessLogsOf [lgWithStationLine] =
      [{ Timestamp := some "Thu Jul 25 09:03:00 2024",
         Event := some "Access-Accept", Username := some "alice",
         StationID := some "AA", Source := some "sp1", Destination := none,
         ServerIP := some "10.0.0.5", CUI := none }] :=
  ⟨rfl, rfl⟩

/-- C2 (amended): an access record is produced only with all mandatory
components present - every accepted record has timestamp, event,
stationid, source and IP groups bound (first conjunct); the optional
capture groups username, destination and CUI yield null rather than
rejection (`lgNoOptLine` is accepted with all three null); and lines
whose mandatory components fail - missing event keyword, missing IP,
missing stationid (see the counterexample) - extract zero records. -/
theorem C2_access_mandatory_optional :
    (∀ line rec, LogGen.accessLogsOf [line] = [rec] →
      rec.Timestamp.isSome = true ∧ rec.Event.isSome = true ∧
      rec.StationID.isSome = true ∧ rec.Source.isSome = true ∧
      rec.ServerIP.isSome = true) ∧
    LogGen.accessLogsOf [lgNoOptLine] = [lgNoOptRow] ∧
    lgNoOptRow.Username = none ∧
    lgNoOptRow.Destination = none ∧
    lgNoOptRow.CUI = none ∧
    LogGen.accessLogsOf [lgNoEventLine] = [] ∧
    LogGen.accessLogsOf [lgNoIpLine] = [] := by
  refine ⟨?_, rfl, rfl, rfl, rfl, rfl, rfl⟩
  intro line rec h
  obtain ⟨caps, hs, hrec⟩ := accessLogsOf_singleton_inv h
  subst hrec
  exact ⟨grp_isSome (@searchCaps_alwaysBound LogGen.accessPattern 0 (by decide) _ _ hs),
    grp_isSome (@searchCaps_alwaysBound LogGen.accessPattern 1 (by decide) _ _ hs),
    grp_isSome (@searchCaps_alwaysBound LogGen.accessPattern 3 (by decide) _ _ hs),
    grp_isSome (@searchCaps_alwaysBound LogGen.accessPattern 4 (by decide) _ _ hs),
    grp_isSome (@searchCaps_alwaysBound LogGen.accessPattern 6 (by decide) _ _ hs)⟩

/-- C2 witness: the first conjunct of the amended theorem applied to the
concrete accepted line `lgNoOptLine` and its record. -/
theorem C2_witness :
    lgNoOptRow.Timestamp.isSome = true ∧ lgNoOptRow.Event.isSome = true ∧
    lgNoOptRow.StationID.isSome = true ∧ lgNoOptRow.Source.isSome = true ∧
    lgNoOptRow.ServerIP.isSome = true :=
  C2_access_mandatory_optional.1 lgNoOptLine lgNoOptRow rfl

/-- C3: for every line the F-TICKS classifier of `log_generator.py`
accepts, the derived `Reason` is "Authentication successful" iff the
captured `RESULT` is exactly the string "OK" (case-sensitive); any
other value - "FAIL", the empty string, lower-case "ok" - gives
"Authentication failed". -/
theorem C3_reason_iff_result_ok :
    ∀ line rec, LogGen.fticksLogsOf [line] = [rec] →
      (rec.Reason = "Authentication successful" ↔ rec.RESULT = some "OK") := by
  intro line rec h
  obtain ⟨caps, hs, hrec⟩ := fticksLogsOf_singleton_inv h
  subst hrec
  by_cases hr : grp caps 4 = some "OK"
  · simp [LogGen.buildFticks, hr]
  · simp [LogGen.buildFticks, hr]

/-- The rows extracted from `fticksLine` and `fticksLineLower`. -/
def fticksRowOK : LogGen.FticksRow :=
  { Timestamp := some "Thu Jul 25 09:03:05 2024", VISCOUNTRY := some "IN",
    VISINST := some "nit.ac.in", CSI := some "abc123", RESULT := some "OK",
    Reason := "Authentication successful" }

def fticksRowLower : LogGen.FticksRow :=
  { Timestamp := some "Thu Jul 25 09:03:05 2024", VISCOUNTRY := some "IN",
    VISINST := some "y", CSI := some "z", RESULT := some "ok",
    Reason := "Authentication failed" }

/-- C3 witness: the theorem applied to a concrete `RESULT=OK` line and a
concrete lower-case `RESULT=ok` line. -/
theorem C3_witness :
    ((fticksRowOK.Reason = "Authentication successful") ↔
      (fticksRowOK.RESULT = some "OK")) ∧
    ((fticksRowLower.Reason = "Authentication successful") ↔
      (fticksRowLower.RESULT = some "OK")) :=
  ⟨C3_reason_iff_result_ok fticksLine fticksRowOK rfl,
   C3_reason_iff_result_ok fticksLineLower fticksRowLower rfl⟩

/-- C4 counterexample: the claim says an unparseable timestamp in a
matched line yields a retained record with a null timestamp and never
aborts the batch, citing both implementations.  In `ritik.py` line 213
`pd.to_datetime` is called with the fixed format and the default
`errors="raise"` policy, so the grammar-matching line with the invalid
weekday `Xxy` raises a `ValueError` and aborts the whole batch. -/
theorem C4_counterexample :
    Ritik.parseEduroamLog jzero jzero badTsLine =
      .error "ValueError: time data does not match format" := rfl

/-- The two tables `extract_summary_tables_from_stream` produces for
`[badTsLine, fticksLine]`: the access record is retained with a null
(`NaT`) timestamp, the F-TICKS record gets a parsed timestamp. -/
def c4outA : List LogGen.AccessRowTs :=
  [{ Timestamp := none, Event := some "Access-Accept", Username := some "a",
     StationID := some "AA", Source := some "sp1", Destination := none,
     ServerIP := some "1.2.3.4", CUI := none }]

def c4outF : List LogGen.FticksRowTs :=
  [{ Timestamp := some ⟨2024, 7, 25, 9, 3, 5⟩, VISCOUNTRY := some "IN",
     VISINST := some "nit.ac.in", CSI := some "abc123", RESULT := some "OK",
     Reason := "Authentication successful" }]

/-- C4 (amended): in `log_generator.py` the normalization stage is
`errors="coerce"`: whenever `extract_summary_tables_from_stream`
returns at all, it returns exactly the classified rows with timestamps
replaced by their parse result (null on failure) - no record is dropped
(first conjunct); concretely, the grammar-matching line with invalid
weekday `Xxy` is retained with a null timestamp (second conjunct).  In
the extended analyzer (`ritik.py`) the same input instead raises, per
the counterexample. -/
theorem C4_coerce_retains_records :
    (∀ lines a f, LogGen.extractSummary lines = .ok (a, f) →
      a = (LogGen.accessLogsOf lines).map LogGen.coerceAccess ∧
      f = (LogGen.fticksLogsOf lines).map LogGen.coerceFticks ∧
      a.length = (LogGen.accessLogsOf lines).length) ∧
    LogGen.extractSummary [badTsLine, fticksLine] = .ok (c4outA, c4outF) := by
  refine ⟨?_, rfl⟩
  intro lines a f h
  simp only [LogGen.extractSummary] at h
  split_ifs at h with h1 h2
  injection h with h3
  have ha : (LogGen.accessLogsOf lines).map LogGen.coerceAccess = a :=
    congrArg Prod.fst h3
  have hf : (LogGen.fticksLogsOf lines).map LogGen.coerceFticks = f :=
    congrArg Prod.snd h3
  refine ⟨ha.symm, hf.symm, ?_⟩
  rw [← ha]
  exact List.length_map _ _

/-- C4 witness: the first conjunct of the amended theorem applied to the
concrete input `[badTsLine, fticksLine]`. -/
theorem C4_witness :
    c4outA = (LogGen.accessLogsOf [badTsLine, fticksLine]).map LogGen.coerceAccess ∧
    c4outF = (LogGen.fticksLogsOf [badTsLine, fticksLine]).map LogGen.coerceFticks ∧
    c4outA.length = (LogGen.accessLogsOf [badTsLine, fticksLine]).length :=
  C4_coerce_retains_records.1 [badTsLine, fticksLine] c4outA c4outF rfl

theorem enrichRow_roaming_fields (jlat jlon : Nat → Int) (hR : Bool) (i : Nat)
    (ts : Option Ts) (r : Ritik.RkRec) :
    (Ritik.enrichRow jlat jlon hR i ts r).is_roaming =
      (decide ((Ritik.enrichRow jlat jlon hR i ts r).home_country ≠
          (Ritik.enrichRow jlat jlon hR i ts r).visiting_country) &&
       decide ((Ritik.enrichRow jlat jlon hR i ts r).home_country ≠
          "Unknown")) := rfl

/-- C5: for every record the enrichment stage produces, a true roaming
flag implies the home jurisdiction is not "Unknown" and differs from
the visiting jurisdiction - line 294 computes the flag as exactly the
conjunction of those two conditions, so a record with unknown home
country is never flagged as roaming. -/
theorem C5_roaming_invariant :
    ∀ (jlat jlon : Nat → Int) recs rows row,
      Ritik.enrichLogData jlat jlon recs = .ok rows → row ∈ rows →
      row.is_roaming = true →
      row.home_country ≠ "Unknown" ∧
      row.home_country ≠ row.visiting_country := by
  intro jlat jlon recs rows row h hmem hro
  simp only [Ritik.enrichLogData] at h
  split_ifs at h with h1
  injection h with h2
  rw [← h2] at hmem
  rw [List.mem_map] at hmem
  obtain ⟨itr, -, hrow⟩ := hmem
  subst hrow
  rw [enrichRow_roaming_fields, Bool.and_eq_true, decide_eq_true_eq,
    decide_eq_true_eq] at hro
  exact ⟨hro.2, hro.1⟩

/-- The enriched row for `aliceLine` alone (no F-TICKS record, so no
realm column; zero jitter). -/
def c5row : Ritik.EnrRow :=
  Ritik.enrichRow jzero jzero false 0 (some ⟨2024, 7, 25, 9, 3, 0⟩) aliceRecRK

/-- C5 witness: the invariant applied to a concrete enrichment run in
which alice's record is flagged as roaming. -/
theorem C5_witness :
    c5row.home_country ≠ "Unknown" ∧
    c5row.home_country ≠ c5row.visiting_country :=
  C5_roaming_invariant jzero jzero
    [(some ⟨2024, 7, 25, 9, 3, 0⟩, aliceRecRK)] [c5row] c5row rfl
    (List.mem_singleton.mpr rfl) rfl

/-- Forget the jittered map coordinates of an enriched row. -/
def dropGeo (r : Ritik.EnrRow) : Ritik.EnrRow :=
  { r with latitude := 0, longitude := 0 }

/-- Forget the jittered map coordinates of a whole pipeline result. -/
def stripGeo : Except String (Option String × List Ritik.EnrRow) →
    Except String (Option String × List Ritik.EnrRow)
  | .error e => .error e
  | .ok (m, rows) => .ok (m, rows.map dropGeo)

theorem dropGeo_enrichRow (j1 o1 j2 o2 : Nat → Int) (hR : Bool) (i : Nat)
    (ts : Option Ts) (r : Ritik.RkRec) :
    dropGeo (Ritik.enrichRow j1 o1 hR i ts r) =
      dropGeo (Ritik.enrichRow j2 o2 hR i ts r) := rfl

/-- C6 counterexample: the claim says the pipeline (including
enrichment) is a deterministic function of the input text, producing
byte-identical tables on re-runs.  Lines 312-313 add fresh
`np.random.uniform` draws to the coordinates, so two runs of
`parse_eduroam_log` on the same input under different random states
produce different tables (first row's latitude 0 vs 7). -/
theorem C6_counterexample :
    latOfFirst (Ritik.parseEduroamLog jzero jzero bothInput) = some 0 ∧
    latOfFirst (Ritik.parseEduroamLog jseven jzero bothInput) = some 7 ∧
    Ritik.parseEduroamLog jzero jzero bothInput ≠
      Ritik.parseEduroamLog jseven jzero bothInput := by
  refine ⟨rfl, rfl, ?_⟩
  intro h
  have h0 : (some 0 : Option Int) = some 7 :=
    calc (some 0 : Option Int)
        = latOfFirst (Ritik.parseEduroamLog jzero jzero bothInput) := rfl
      _ = latOfFirst (Ritik.parseEduroamLog jseven jzero bothInput) :=
          congrArg latOfFirst h
      _ = some 7 := rfl
  exact absurd h0 (by decide)

/-- C6 (amended): everything except the jittered latitude/longitude
columns is a deterministic function of the input text alone - for every
input and any two random states, the two pipeline results agree after
the coordinate columns are forgotten.  (The minimal
`log_generator.py` stage involves no randomness at all.) -/
theorem C6_deterministic_modulo_jitter :
    ∀ (j1 o1 j2 o2 : Nat → Int) (content : String),
      stripGeo (Ritik.parseEduroamLog j1 o1 content) =
        stripGeo (Ritik.parseEduroamLog j2 o2 content) := by
  intro j1 o1 j2 o2 content
  simp only [Ritik.parseEduroamLog]
  by_cases hc : (Ritik.parseRecords
      ((splitOnChar '\n' (pyStrip content.toList)).map String.mk)).isEmpty
  · rw [if_pos hc, if_pos hc]
  · rw [if_neg hc, if_neg hc]
    cases htd : Ritik.toDatetimeStrict (Ritik.parseRecords
        ((splitOnChar '\n' (pyStrip content.toList)).map String.mk)) with
    | none => rfl
    | some recs =>
      simp only [Ritik.enrichLogData]
      by_cases hu : !(recs.any fun tr => tr.2.isAccess)
      · rw [if_pos hu, if_pos hu]
      · rw [if_neg hu, if_neg hu]
        simp only [stripGeo, List.map_map]
        refine congrArg _ (congrArg _ ?_)
        refine List.map_congr_left ?_
        intro itr _
        exact dropGeo_enrichRow j1 o1 j2 o2 _ itr.1 itr.2.1 itr.2.2

/-- C7 counterexample: the claim says Access-record content (including
enriched fields) is unchanged by adding F-TICKS-only lines.  In
`ritik.py`, adding the F-TICKS line (which does not match the access
grammar, first conjunct) changes alice's enriched home country from
"India" to "Unknown": with an F-TICKS record present the DataFrame has
a `realm` column, so line 226 no longer derives realms from
usernames. -/
theorem C7_counterexample :
    matchCaps Ritik.accessPattern fticksLine.toList = none ∧
    homeOfFirst (Ritik.parseEduroamLog jzero jzero aliceLine) = some "India" ∧
    homeOfFirst (Ritik.parseEduroamLog jzero jzero bothInput) = some "Unknown" :=
  ⟨rfl, rfl, rfl⟩

/-- C7 (amended): in the minimal variant the two tables are genuinely
independent - inserting a line that does not match the Access grammar
anywhere leaves the Access table unchanged, and symmetrically for the
F-TICKS table (so adding or removing F-TICKS-only lines never affects
the other table).  In the extended analyzer the same holds for the raw
parsed records, but not for the enriched Access fields - see the
counterexample. -/
theorem C7_tables_independent :
    (∀ pre post line,
      searchCaps LogGen.accessPattern line.toList = none →
      LogGen.accessLogsOf (pre ++ line :: post) =
        LogGen.accessLogsOf (pre ++ post)) ∧
    (∀ pre post line,
      searchCaps LogGen.fticksPattern line.toList = none →
      LogGen.fticksLogsOf (pre ++ line :: post) =
        LogGen.fticksLogsOf (pre ++ post)) := by
  constructor
  · intro pre post line h
    have h' : searchCaps LogGen.accessPattern line.data = none := h
    unfold LogGen.accessLogsOf
    rw [List.filterMap_append, List.filterMap_append]
    refine congrArg _ ?_
    rw [List.filterMap_cons]
    simp [h']
  · intro pre post line h
    have h' : searchCaps LogGen.fticksPattern line.data = none := h
    unfold LogGen.fticksLogsOf
    rw [List.filterMap_append, List.filterMap_append]
    refine congrArg _ ?_
    rw [List.filterMap_cons]
    simp [h']

/-- C7 witness: the amended theorem applied concretely - appending the
F-TICKS example line leaves the Access table unchanged, and appending
the access example line leaves the F-TICKS table unchanged. -/
theorem C7_witness :
    LogGen.accessLogsOf [aliceLine, fticksLine] =
      LogGen.accessLogsOf [aliceLine] ∧
    LogGen.fticksLogsOf [fticksLine, aliceLine] =
      LogGen.fticksLogsOf [fticksLine] :=
  ⟨C7_tables_independent.1 [aliceLine] [] fticksLine rfl,
   C7_tables_independent.2 [fticksLine] [] aliceLine rfl⟩

/-- C9: home-country inference is substring containment on the
lower-cased realm, with the `.in`/domestic check first: any realm
containing `.in` anywhere (even `x.infn.it`, which ends in another
country's TLD) maps to "India" (first conjunct), and a realm containing
none of the markers maps to "Unknown" (second conjunct). -/
theorem C9_country_marker_order :
    (∀ realm, strContains (lowerStr realm) ".in" = true →
      Ritik.getCountryFromRealm realm = "India") ∧
    (∀ realm,
      strContains (lowerStr realm) ".in" = false →
      strContains (lowerStr realm) ".it" = false →
      strContains (lowerStr realm) ".uk" = false →
      strContains (lowerStr realm) ".ac.uk" = false →
      strContains (lowerStr realm) ".edu" = false →
      strContains (lowerStr realm) ".de" = false →
      strContains (lowerStr realm) ".fr" = false →
      strContains (lowerStr realm) ".nl" = false →
      strContains (lowerStr realm) ".se" = false →
      Ritik.getCountryFromRealm realm = "Unknown") := by
  constructor
  · intro realm h
    have h0 : ¬(realm = "") := by
      intro he
      subst he
      exact absurd h (by decide)
    simp [Ritik.getCountryFromRealm, h0, h]
  · intro realm h1 h2 h3 h4 h5 h6 h7 h8 h9
    by_cases h0 : realm = ""
    · subst h0
      simp [Ritik.getCountryFromRealm]
    · have hany : Ritik.indianInstitutions.any
          (fun inst => strContains (lowerStr realm) inst) = false := by
        cases han : Ritik.indianInstitutions.any
            (fun inst => strContains (lowerStr realm) inst)
        · rfl
        · exfalso
          rw [List.any_eq_true] at han
          obtain ⟨inst, hmem, hc⟩ := han
          have hin : strContains inst ".in" = true := by
            simp only [Ritik.indianInstitutions, List.mem_cons,
              List.not_mem_nil, or_false] at hmem
            rcases hmem with rfl | rfl | rfl | rfl | rfl | rfl | rfl | rfl |
              rfl | rfl | rfl | rfl | rfl | rfl | rfl | rfl | rfl | rfl |
              rfl | rfl <;> decide
          have hfin := strContains_trans hin hc
          rw [hfin] at h1
          cases h1
      simp [Ritik.getCountryFromRealm, h0, h1, h2, h3, h4, h5, h6, h7, h8,
        h9, hany]

/-- C9 witness: the theorem applied to `x.infn.it` (contains `.in`
although it ends in Italy's TLD) and to a marker-free realm. -/
theorem C9_witness :
    Ritik.getCountryFromRealm "x.infn.it" = "India" ∧
    Ritik.getCountryFromRealm "foo.xyz" = "Unknown" :=
  ⟨C9_country_marker_order.1 "x.infn.it" (by decide),
   C9_country_marker_order.2 "foo.xyz" (by decide) (by decide) (by decide)
     (by decide) (by decide) (by decide) (by decide) (by decide) (by decide)⟩

/-- C10 counterexample: the claim says all aggregate totals including
per-user connection counts count F-TICKS records as failed connections.
On `bothInput` the enriched table has 2 rows (the F-TICKS record is in
the total), but the only per-user entry is alice's with count 1: the
F-TICKS row carries the sentinel username "unknown", which
`analyze_movements` skips, so per-user counts exclude F-TICKS records
entirely. -/
theorem C10_counterexample :
    Ritik.totalConnections (rowsOf (Ritik.parseEduroamLog jzero jzero bothInput)) = 2 ∧
    Ritik.movementUsers (rowsOf (Ritik.parseEduroamLog jzero jzero bothInput)) =
      ["alice@iitd.ac.in"] ∧
    Ritik.userTotalConnections (rowsOf (Ritik.parseEduroamLog jzero jzero bothInput))
      "alice@iitd.ac.in" = 1 :=
  ⟨rfl, rfl, rfl⟩

/-- C10 (amended): every record produced from an F-TICKS line has no
event status, is assigned `connection_success = "Failed"` by enrichment
and is excluded from the Accept counts, and whole-table totals (such as
`total_connections` and success-rate denominators) include the F-TICKS
rows; per-user counts however exclude them, because their username is
the sentinel "unknown" (see the counterexample). -/
theorem C10_fticks_rows_in_aggregates :
    ∀ (jlat jlon : Nat → Int) recs rows,
      Ritik.enrichLogData jlat jlon recs = .ok rows →
      Ritik.totalConnections rows = recs.length ∧
      (∀ row ∈ rows, row.isAccess = false →
        row.connection_success = "Failed" ∧ row.status = none) ∧
      Ritik.successfulConnections rows =
        Ritik.successfulConnections (rows.filter (fun r => r.isAccess)) := by
  intro jlat jlon recs rows h
  simp only [Ritik.enrichLogData] at h
  split_ifs at h with h1
  injection h with h2
  have hrow2 : ∀ row ∈ rows, row.isAccess = false →
      row.connection_success = "Failed" ∧ row.status = none := by
    intro row hmem hacc
    rw [← h2] at hmem
    rw [List.mem_map] at hmem
    obtain ⟨itr, -, hrow⟩ := hmem
    subst hrow
    rcases itr with ⟨i, ts, r⟩
    cases r with
    | access t st u sid cu fi ti ip op =>
      simp [Ritik.enrichRow, Ritik.RkRec.isAccess] at hacc
    | fticks t re vc vi cs rs =>
      exact ⟨rfl, rfl⟩
  refine ⟨?_, hrow2, ?_⟩
  · rw [← h2]
    simp [Ritik.totalConnections]
  · have hinv : ∀ r ∈ rows, r.status = some "Accept" → r.isAccess = true := by
      intro r hr hst
      cases hacc : r.isAccess
      · have := (hrow2 r hr hacc).2
        rw [this] at hst
        cases hst
      · rfl
    have key : ∀ (l : List Ritik.EnrRow), Ritik.successfulConnections l =
        l.countP (fun r => r.status == some "Accept") := by
      intro l
      unfold Ritik.successfulConnections
      rw [List.countP_eq_length_filter]
    rw [key, key, List.countP_filter]
    apply List.countP_congr
    intro a ha
    cases hp : (a.status == some "Accept")
    · simp [hp]
    · have hia := hinv a ha (by simpa using hp)
      simp [hp, hia]

/-- The record `ritik.py` extracts from `fticksLine`. -/
def fticksRecRK : Ritik.RkRec :=
  .fticks (some "Thu Jul 25 09:03:05 2024") (some "iitd.ac.in") (some "IN")
    (some "nit.ac.in") (some "abc123") (some "OK")

def c10recs : List (Option Ts × Ritik.RkRec) :=
  [(some ⟨2024, 7, 25, 9, 3, 0⟩, aliceRecRK),
   (some ⟨2024, 7, 25, 9, 3, 5⟩, fticksRecRK)]

def c10rows : List Ritik.EnrRow :=
  [Ritik.enrichRow jzero jzero true 0 (some ⟨2024, 7, 25, 9, 3, 0⟩) aliceRecRK,
   Ritik.enrichRow jzero jzero true 1 (some ⟨2024, 7, 25, 9, 3, 5⟩) fticksRecRK]

/-- C10 witness: the amended theorem applied to the concrete mixed
enrichment input with one access and one F-TICKS record. -/
theorem C10_witness :
    Ritik.totalConnections c10rows = c10recs.length ∧
    (∀ row ∈ c10rows, row.isAccess = false →
      row.connection_success = "Failed" ∧ row.status = none) ∧
    Ritik.successfulConnections c10rows =
      Ritik.successfulConnections (c10rows.filter (fun r => r.isAccess)) :=
  C10_fticks_rows_in_aggregates jzero jzero c10recs c10rows rfl
